import Mathlib

/-!
Shallow embedding of the food-delivery order service (`src/server.go`).

Modelling conventions:
* Go `float64` prices and totals are modelled as exact rationals (`ℚ`);
  the claims under study concern which items contribute to a sum, not
  floating-point rounding.
* Go `int` quantities are modelled as `ℤ`.
* The Redis backing store is modelled by the read behaviour an environment
  supplies per key (`CacheReadResult`): a successful read, the explicit
  `redis.Nil` absent result, or another infrastructure error.
* `json.Marshal` / `json.Unmarshal` of a `RestaurantMenu` are modelled as an
  injection into a serialized-value type and its partial inverse; for the
  record types involved Go's encoder round-trips, which the model reflects.
* Side effects (cache reads/writes, catalog-file reads, Kafka publishes) are
  returned explicitly in an `Effects` record; `ordersPublished` records the
  messages durably appended to the "orders" topic.
* `rand.Intn(10000)` is modelled by an environment-supplied natural number
  taken modulo 10000, reflecting the `Intn` contract of a result in [0, n).
-/

namespace FoodDelivery

/-- Go struct `MenuItem` (server.go lines 23-28). -/
structure MenuItem where
  id : String
  name : String
  price : ℚ
  description : String
deriving DecidableEq, Repr

/-- Go struct `RestaurantMenu` (server.go lines 30-33). -/
structure RestaurantMenu where
  restaurantId : String
  menu : List MenuItem
deriving DecidableEq, Repr

/-- Go struct `OrderItem` (server.go lines 45-48). -/
structure OrderItem where
  menuId : String
  quantity : ℤ
deriving DecidableEq, Repr

/-- A value stored in the cache backing store: either a serialized
`RestaurantMenu` (the image of `json.Marshal`) or other raw bytes. -/
inductive SerializedValue where
  | menuVal (m : RestaurantMenu)
  | raw (s : String)
deriving DecidableEq, Repr

/-- Model of `json.Marshal` on a `RestaurantMenu`. -/
def marshalMenu (m : RestaurantMenu) : SerializedValue := .menuVal m

/-- Model of `json.Unmarshal` into a `RestaurantMenu`: succeeds exactly on
marshalled menus. -/
def unmarshalMenu : SerializedValue → Option RestaurantMenu
  | .menuVal m => some m
  | .raw _ => none

/-- Outcome of `redisClient.Get(ctx, key).Result()`: a stored value, the
explicit `redis.Nil` key-absent result, or another infrastructure error. -/
inductive CacheReadResult where
  | found (v : SerializedValue)
  | nil
  | err (msg : String)

/-- State of the catalog seed file `menu.json` as seen by `os.ReadFile`
plus `json.Unmarshal`: unreadable, unparsable, or a valid menu record. -/
inductive MenuFile where
  | absent
  | malformed
  | valid (m : RestaurantMenu)

/-- The external world a request handler runs against. -/
structure Env where
  /-- Behaviour of the Redis backing store on reads, per key. -/
  cacheRead : String → CacheReadResult
  /-- Contents of the catalog seed file `menu.json`. -/
  menuFile : MenuFile
  /-- Result of `kafkaWriter.WriteMessages` on the "orders" topic:
  `none` means the publish succeeds. -/
  ordersPublishErr : Option String
  /-- The value drawn by the random generator; `rand.Intn(10000)` is
  modelled as this value modulo 10000. -/
  rand : ℕ

/-- Side effects performed while handling one request. -/
structure Effects where
  /-- Keys read from the Redis backing store. -/
  cacheReads : List String
  /-- Key/value pairs written to the Redis backing store (`Set`). -/
  cacheWrites : List (String × SerializedValue)
  /-- Catalog seed files read from disk. -/
  fileReads : List String
  /-- Messages durably appended to the "orders" Kafka topic. -/
  ordersPublished : List String
deriving DecidableEq, Repr

/-- No side effects. -/
def Effects.empty : Effects := ⟨[], [], [], []⟩

/-- Go `fetchMenuFromFile` (server.go lines 340-361): read and parse
`menu.json`, reject on restaurant-id mismatch, and on success write the
marshalled menu back to the cache with a one-hour TTL. -/
def fetchMenuFromFile (env : Env) (restaurantID : String) :
    Except String RestaurantMenu × Effects :=
  match env.menuFile with
  | .absent => (.error "failed to read menu file", { Effects.empty with fileReads := ["menu.json"] })
  | .malformed => (.error "failed to parse menu JSON", { Effects.empty with fileReads := ["menu.json"] })
  | .valid menuData =>
    if menuData.restaurantId = restaurantID then
      (.ok menuData,
        { Effects.empty with
            fileReads := ["menu.json"]
            cacheWrites := [(restaurantID, marshalMenu menuData)] })
    else
      (.error ("menu for restaurant " ++ restaurantID ++ " not found"),
        { Effects.empty with fileReads := ["menu.json"] })

/-- Go `getMenuFromCache` (server.go lines 323-338): read the key from
Redis; on `redis.Nil` fall back to `fetchMenuFromFile`; on any other read
error surface a Redis error; on a hit unmarshal the cached value. -/
def getMenuFromCache (env : Env) (restaurantID : String) :
    Except String RestaurantMenu × Effects :=
  match env.cacheRead restaurantID with
  | .nil =>
    let res := fetchMenuFromFile env restaurantID
    (res.fst, { res.snd with cacheReads := restaurantID :: res.snd.cacheReads })
  | .err e =>
    (.error ("redis error: " ++ e), { Effects.empty with cacheReads := [restaurantID] })
  | .found v =>
    match unmarshalMenu v with
    | none => (.error "failed to parse cached menu", { Effects.empty with cacheReads := [restaurantID] })
    | some menu => (.ok menu, { Effects.empty with cacheReads := [restaurantID] })

/-- Go `fetchMenuFromJSON` (server.go lines 154-185): read and parse
`menu.json` and reject on restaurant-id mismatch; unlike
`fetchMenuFromFile` it performs no cache write itself. -/
def fetchMenuFromJSON (env : Env) (restaurantID : String) :
    Except String RestaurantMenu × Effects :=
  match env.menuFile with
  | .absent => (.error "read error", { Effects.empty with fileReads := ["menu.json"] })
  | .malformed => (.error "parse error", { Effects.empty with fileReads := ["menu.json"] })
  | .valid menuData =>
    if menuData.restaurantId = restaurantID then
      (.ok menuData, { Effects.empty with fileReads := ["menu.json"] })
    else
      (.error ("menu for restaurant " ++ restaurantID ++ " not found"),
        { Effects.empty with fileReads := ["menu.json"] })

/-- HTTP handler outcome: 200 with a body, 400 client error, or 500 server
error. -/
inductive HandlerResult (α : Type) where
  | ok (body : α)
  | badRequest (msg : String)
  | serverError (msg : String)
deriving DecidableEq, Repr

/-- Go handler `getMenu` (server.go lines 117-152). -/
def getMenu (env : Env) (restaurantID : String) :
    HandlerResult RestaurantMenu × Effects :=
  if restaurantID = "" then
    (.badRequest "restaurant_id is required", Effects.empty)
  else
    match env.cacheRead restaurantID with
    | .nil =>
      let res := fetchMenuFromJSON env restaurantID
      match res.fst with
      | .error _ =>
        (.serverError "Failed to fetch menu",
          { res.snd with cacheReads := restaurantID :: res.snd.cacheReads })
      | .ok menu =>
        (.ok menu,
          { res.snd with
              cacheReads := restaurantID :: res.snd.cacheReads
              cacheWrites := res.snd.cacheWrites ++ [(restaurantID, marshalMenu menu)] })
    | .err _ =>
      (.serverError "Redis error", { Effects.empty with cacheReads := [restaurantID] })
    | .found v =>
      match unmarshalMenu v with
      | none =>
        (.serverError "Failed to parse cached menu",
          { Effects.empty with cacheReads := [restaurantID] })
      | some menu => (.ok menu, { Effects.empty with cacheReads := [restaurantID] })

/-- The pricing double loop of `placeOrder` (server.go lines 294-301):
for each requested item, scan every menu entry and add
`price * quantity` on each id match. -/
def priceOrder (items : List OrderItem) (menu : List MenuItem) : ℚ :=
  items.foldl
    (fun acc item =>
      menu.foldl
        (fun acc2 menuItem =>
          if item.menuId = menuItem.id then
            acc2 + menuItem.price * (item.quantity : ℚ)
          else
            acc2)
        acc)
    0

/-- Request body bound by `placeOrder`: `restaurant_id` and the `items`
field, which is `none` when the JSON field is absent (Go nil slice). -/
structure PlaceOrderRequest where
  restaurantId : String
  items : Option (List OrderItem)
deriving DecidableEq, Repr

/-- Success body of `placeOrder`: exactly `order_id` and `status`. -/
structure PlaceOrderResponse where
  orderId : String
  status : String
deriving DecidableEq, Repr

/-- The order-created Kafka message of `publishOrderEvent`
(server.go line 364); the `%.2f` float formatting is modelled with
`toString` on the exact total. -/
def orderCreatedMessage (orderId restaurantId : String) (total : ℚ) : String :=
  "Order Created: " ++ orderId ++ " | Restaurant: " ++ restaurantId ++
    " | Total: " ++ toString total

/-- Go handler `placeOrder` (server.go lines 279-321): validate, resolve
the menu through the cache, price the items, draw a random order id, set
status "created", publish the order-created event, and answer with
`{order_id, status}`. -/
def placeOrder (env : Env) (req : PlaceOrderRequest) :
    HandlerResult PlaceOrderResponse × Effects :=
  if req.restaurantId = "" ∨ req.items = none then
    (.badRequest "restaurant_id and items are required", Effects.empty)
  else
    match getMenuFromCache env req.restaurantId with
    | (.error _, eff) => (.serverError "Failed to fetch restaurant menu", eff)
    | (.ok menu, eff) =>
      let items := req.items.getD []
      let totalAmount := priceOrder items menu.menu
      let orderId := toString (env.rand % 10000)
      let message := orderCreatedMessage orderId req.restaurantId totalAmount
      match env.ordersPublishErr with
      | some _ => (.serverError "Failed to publish order event", eff)
      | none =>
        (.ok ⟨orderId, "created"⟩,
          { eff with ordersPublished := eff.ordersPublished ++ [message] })

/-- Request body of `confirmDelivery` (server.go lines 72-75). -/
structure DeliverRequest where
  orderId : String
  riderId : String
deriving DecidableEq, Repr

/-- A `{status: ...}` response body. -/
structure StatusResponse where
  status : String
deriving DecidableEq, Repr

/-- The order-delivered Kafka message of `publishOrderDeliveredEvent`
(server.go line 469). -/
def orderDeliveredMessage (orderId : String) : String :=
  "Order " ++ orderId ++ " Delivered"

/-- Go handler `confirmDelivery` (server.go lines 448-466): validate both
fields non-empty, publish the order-delivered event, answer
`{status: "Delivered"}`. -/
def confirmDelivery (env : Env) (req : DeliverRequest) :
    HandlerResult StatusResponse × Effects :=
  if req.orderId = "" ∨ req.riderId = "" then
    (.badRequest "Missing order_id or rider_id", Effects.empty)
  else
    match env.ordersPublishErr with
    | some e => (.serverError ("failed to publish to Kafka: " ++ e), Effects.empty)
    | none =>
      (.ok ⟨"Delivered"⟩,
        { Effects.empty with ordersPublished := [orderDeliveredMessage req.orderId] })

/-- Request body of `sendNotification` (server.go lines 77-81). -/
structure SendNotificationRequest where
  recipient : String
  orderId : String
  message : String
deriving DecidableEq, Repr

/-- Go handler `sendNotification` (server.go lines 483-496): reject any
recipient other than customer/restaurant/rider, otherwise answer
`{status: "sent"}`; no side effect in either branch. -/
def sendNotification (req : SendNotificationRequest) :
    HandlerResult StatusResponse × Effects :=
  if req.recipient ≠ "customer" ∧ req.recipient ≠ "restaurant" ∧ req.recipient ≠ "rider" then
    (.badRequest "Invalid recipient", Effects.empty)
  else
    (.ok ⟨"sent"⟩, Effects.empty)

/-- Topic of `kafkaWriter` and of the relay's reader (server.go lines 92
and 502). -/
def ordersTopic : String := "orders"

/-- Topic of `kafkaNotiWriter`, target of the relay (server.go line 99). -/
def orderDeliveredTopic : String := "order-delivered"

/-- One observable action of the `consumeOrderDeliveredEvent` loop. -/
inductive RelayAction where
  | readMsg (msg : String)
  | commitOffset (msg : String)
  | publishNoti (topic : String) (payload : String)
deriving DecidableEq, Repr

/-- Go `processOrderDeliveredEvent` (server.go lines 516-521): publish the
source payload prefixed with the notification marker to the notification
topic. -/
def processOrderDeliveredEvent (message : String) : RelayAction :=
  .publishNoti orderDeliveredTopic ("Notification: " ++ message)

/-- One iteration of the `consumeOrderDeliveredEvent` loop (server.go
lines 505-513): read the next message, commit its offset, then derive and
publish the notification. -/
def relayIteration (msg : String) : List RelayAction :=
  [.readMsg msg, .commitOffset msg, processOrderDeliveredEvent msg]

/-- The relay loop run over a finite prefix of the incoming message
stream, as the concatenation of its iterations in order. -/
def relayRun : List String → List RelayAction
  | [] => []
  | m :: ms => relayIteration m ++ relayRun ms

/-- Overlay a list of cache writes (earlier writes first) onto an
environment's backing-store read behaviour: a written key now reads as
found with the last value written. -/
def applyCacheWrites (env : Env) (writes : List (String × SerializedValue)) : Env :=
  { env with
      cacheRead :=
        writes.foldl (fun f kv => fun k => if k = kv.1 then .found kv.2 else f k)
          env.cacheRead }

/-- What one requested item contributes under the code's inner loop: the sum
of `price * quantity` over every menu entry whose id matches. -/
def itemMatchesSum (item : OrderItem) (menu : List MenuItem) : ℚ :=
  ((menu.filter (fun mi => item.menuId = mi.id)).map
    (fun mi => mi.price * (item.quantity : ℚ))).sum

/-- Total as the sum over items of their all-matching-entries contributions. -/
def priceAllMatchesTotal (items : List OrderItem) (menu : List MenuItem) : ℚ :=
  (items.map (fun it => itemMatchesSum it menu)).sum

/-- The spec's wording of OrderPricer.Price: for each requested item, find
the MenuItem with matching identifier; if found add `price * quantity`,
absent items contribute zero. -/
def priceSpecTotal (items : List OrderItem) (menu : List MenuItem) : ℚ :=
  (items.map (fun it =>
    match menu.find? (fun mi => it.menuId = mi.id) with
    | some mi => mi.price * (it.quantity : ℚ)
    | none => 0)).sum

lemma inner_foldl_eq (item : OrderItem) (menu : List MenuItem) (acc : ℚ) :
    menu.foldl
      (fun acc2 menuItem =>
        if item.menuId = menuItem.id then
          acc2 + menuItem.price * (item.quantity : ℚ)
        else
          acc2)
      acc = acc + itemMatchesSum item menu := by
  induction menu generalizing acc with
  | nil => simp [itemMatchesSum]
  | cons mi rest ih =>
    rw [List.foldl_cons]
    by_cases h : item.menuId = mi.id
    · rw [if_pos h, ih]
      simp only [itemMatchesSum, List.filter_cons]
      rw [if_pos (by simpa using h)]
      simp only [List.map_cons, List.sum_cons]
      ring
    · rw [if_neg h, ih]
      simp only [itemMatchesSum, List.filter_cons]
      rw [if_neg (by simpa using h)]

lemma outer_foldl_eq (items : List OrderItem) (menu : List MenuItem) (acc : ℚ) :
    items.foldl
      (fun acc item =>
        menu.foldl
          (fun acc2 menuItem =>
            if item.menuId = menuItem.id then
              acc2 + menuItem.price * (item.quantity : ℚ)
            else
              acc2)
          acc)
      acc = acc + priceAllMatchesTotal items menu := by
  induction items generalizing acc with
  | nil => simp [priceAllMatchesTotal]
  | cons it rest ih =>
    rw [List.foldl_cons, inner_foldl_eq, ih]
    simp only [priceAllMatchesTotal, List.map_cons, List.sum_cons]
    ring

lemma priceOrder_eq_all (items : List OrderItem) (menu : List MenuItem) :
    priceOrder items menu = priceAllMatchesTotal items menu := by
  rw [priceOrder, outer_foldl_eq, zero_add]

lemma itemMatchesSum_of_nodup (item : OrderItem) (menu : List MenuItem)
    (hnd : (menu.map MenuItem.id).Nodup) :
    itemMatchesSum item menu =
      match menu.find? (fun mi => item.menuId = mi.id) with
      | some mi => mi.price * (item.quantity : ℚ)
      | none => 0 := by
  induction menu with
  | nil => simp [itemMatchesSum]
  | cons mi rest ih =>
    simp only [List.map_cons, List.nodup_cons] at hnd
    obtain ⟨hnotin, hnd'⟩ := hnd
    by_cases h : item.menuId = mi.id
    · rw [List.find?_cons_of_pos _ (by simpa using h)]
      have hrest : rest.filter (fun m => decide (item.menuId = m.id)) = [] := by
        rw [List.filter_eq_nil_iff]
        intro a ha
        simp only [decide_eq_true_eq]
        intro hc
        exact hnotin (List.mem_map.mpr ⟨a, ha, by rw [← hc, h]⟩)
      simp only [itemMatchesSum, List.filter_cons, hrest]
      simp [h]
    · rw [List.find?_cons_of_neg _ (by simpa using h)]
      rw [← ih hnd']
      simp only [itemMatchesSum, List.filter_cons]
      rw [if_neg (by simpa using h)]

lemma priceOrder_eq_spec_of_nodup (items : List OrderItem) (menu : List MenuItem)
    (hnd : (menu.map MenuItem.id).Nodup) :
    priceOrder items menu = priceSpecTotal items menu := by
  rw [priceOrder_eq_all, priceAllMatchesTotal, priceSpecTotal]
  congr 1
  apply List.map_congr_left
  intro it _
  exact itemMatchesSum_of_nodup it menu hnd

lemma placeOrder_success (env : Env) (req : PlaceOrderRequest)
    (items : List OrderItem) (menu : RestaurantMenu) (eff : Effects)
    (hrid : ¬req.restaurantId = "") (hitems : req.items = some items)
    (hmenu : getMenuFromCache env req.restaurantId = (.ok menu, eff))
    (hpub : env.ordersPublishErr = none) :
    placeOrder env req =
      (.ok ⟨toString (env.rand % 10000), "created"⟩,
        { eff with
            ordersPublished := eff.ordersPublished ++
              [orderCreatedMessage (toString (env.rand % 10000)) req.restaurantId
                (priceOrder items menu.menu)] }) := by
  rw [placeOrder, if_neg (by simp [hrid, hitems]), hmenu, hpub]
  simp [hitems]

/-! Concrete data used by the witnesses. -/

/-- A concrete seed menu (the spec's end-to-end scenario 1). -/
def menuW : RestaurantMenu :=
  ⟨"r1", [⟨"m1", "pad thai", 10, ""⟩, ⟨"m2", "spring rolls", 5, ""⟩]⟩

/-- An environment whose cache is cold, whose seed file holds `menuW`, and
whose publisher succeeds. -/
def envW : Env :=
  { cacheRead := fun _ => .nil
    menuFile := .valid menuW
    ordersPublishErr := none
    rand := 42 }

/-- The effects of a miss-then-populate menu resolution for "r1". -/
def effMissW : Effects := ⟨["r1"], [("r1", marshalMenu menuW)], ["menu.json"], []⟩

/-- Requested items including one (`m9`) absent from the menu. -/
def itemsW : List OrderItem := [⟨"m1", 2⟩, ⟨"m2", 1⟩, ⟨"m9", 3⟩]

/-- A create request over `itemsW`. -/
def reqW : PlaceOrderRequest := ⟨"r1", some itemsW⟩

/-- A create request with a negative quantity. -/
def reqNegW : PlaceOrderRequest := ⟨"r1", some [⟨"m1", -2⟩]⟩

/-- Claim C1: for every order request and resolved menu (with the distinct
menu identifiers presupposed by "the MenuItem with matching identifier"),
the totalAmount computed by Create is the sum over requested items of menu
price times quantity for items whose id occurs in the menu; an item whose
id is absent contributes zero and does not cause rejection — the request
still succeeds. -/
theorem create_total_is_spec_sum (env : Env) (req : PlaceOrderRequest)
    (items : List OrderItem) (menu : RestaurantMenu) (eff : Effects)
    (hrid : ¬req.restaurantId = "") (hitems : req.items = some items)
    (hmenu : getMenuFromCache env req.restaurantId = (.ok menu, eff))
    (hpub : env.ordersPublishErr = none)
    (hnd : (menu.menu.map MenuItem.id).Nodup) :
    (placeOrder env req).fst = .ok ⟨toString (env.rand % 10000), "created"⟩ ∧
    priceOrder items menu.menu = priceSpecTotal items menu.menu := by
  refine ⟨?_, priceOrder_eq_spec_of_nodup items menu.menu hnd⟩
  rw [placeOrder_success env req items menu eff hrid hitems hmenu hpub]

theorem create_total_is_spec_sum_witness :
    (placeOrder envW reqW).fst = .ok ⟨toString (42 % 10000), "created"⟩ ∧
    priceOrder itemsW menuW.menu = priceSpecTotal itemsW menuW.menu :=
  create_total_is_spec_sum envW reqW itemsW menuW effMissW
    (by decide) rfl rfl rfl (by decide)

/-- Claim C2: when restaurantId is empty or the items field is absent,
Create answers a validation (client) error with no side effect at all: no
cache read, no catalog-file fetch, no cache write, no publish. -/
theorem create_validation_no_side_effect (env : Env) (req : PlaceOrderRequest)
    (h : req.restaurantId = "" ∨ req.items = none) :
    placeOrder env req =
      (.badRequest "restaurant_id and items are required", Effects.empty) := by
  rw [placeOrder, if_pos h]

theorem create_validation_no_side_effect_witness :
    placeOrder envW ⟨"r1", none⟩ =
      (.badRequest "restaurant_id and items are required", Effects.empty) :=
  create_validation_no_side_effect envW ⟨"r1", none⟩ (Or.inr rfl)

/-- Claim C5: a successful Create returns a response of exactly an order id
and a status, where the order id is the decimal representation of the
random integer in [0, 10000) and the status is "created". -/
theorem create_orderid_range_and_shape (env : Env) (req : PlaceOrderRequest)
    (items : List OrderItem) (menu : RestaurantMenu) (eff : Effects)
    (hrid : ¬req.restaurantId = "") (hitems : req.items = some items)
    (hmenu : getMenuFromCache env req.restaurantId = (.ok menu, eff))
    (hpub : env.ordersPublishErr = none) :
    ∃ n : ℕ, n < 10000 ∧
      (placeOrder env req).fst = .ok { orderId := toString n, status := "created" } :=
  ⟨env.rand % 10000, Nat.mod_lt _ (by norm_num), by
    rw [placeOrder_success env req items menu eff hrid hitems hmenu hpub]⟩

theorem create_orderid_range_and_shape_witness :
    ∃ n : ℕ, n < 10000 ∧
      (placeOrder envW reqW).fst = .ok { orderId := toString n, status := "created" } :=
  create_orderid_range_and_shape envW reqW itemsW menuW effMissW
    (by decide) rfl rfl rfl

/-- Claim C9: the pricing inner loop does not stop at the first match: an
order item contributes price times quantity once for every menu entry with
a matching id, as in the concrete duplicate-id menu where one item of
quantity one is charged both matching prices. -/
theorem pricing_counts_every_matching_entry
    (items : List OrderItem) (menu : List MenuItem) :
    priceOrder items menu = priceAllMatchesTotal items menu ∧
    priceOrder [⟨"m1", 1⟩] [⟨"m1", "a", 10, ""⟩, ⟨"m1", "b", 7, ""⟩] = 17 :=
  ⟨priceOrder_eq_all items menu, by norm_num [priceOrder]⟩

/-- Claim C10: Create validates no quantities: any request prices and
succeeds whatever the quantities, a zero quantity contributes zero, and a
negative quantity makes the total negative. -/
theorem create_accepts_nonpositive_quantities :
    (∀ (env : Env) (req : PlaceOrderRequest) (items : List OrderItem)
        (menu : RestaurantMenu) (eff : Effects),
      ¬req.restaurantId = "" → req.items = some items →
      getMenuFromCache env req.restaurantId = (.ok menu, eff) →
      env.ordersPublishErr = none →
      (placeOrder env req).fst = .ok ⟨toString (env.rand % 10000), "created"⟩) ∧
    priceOrder [⟨"m1", 0⟩] [⟨"m1", "a", 10, ""⟩] = 0 ∧
    priceOrder [⟨"m1", -2⟩] [⟨"m1", "a", 10, ""⟩] = -20 := by
  refine ⟨fun env req items menu eff hrid hitems hmenu hpub => ?_, ?_, ?_⟩
  · rw [placeOrder_success env req items menu eff hrid hitems hmenu hpub]
  · norm_num [priceOrder]
  · norm_num [priceOrder]

theorem create_accepts_nonpositive_quantities_witness :
    (placeOrder envW reqNegW).fst = .ok ⟨toString (42 % 10000), "created"⟩ :=
  create_accepts_nonpositive_quantities.1 envW reqNegW [⟨"m1", -2⟩] menuW effMissW
    (by decide) rfl rfl rfl

/-- An environment whose cache backing store fails with an infrastructure
error on every read. -/
def envErrW : Env :=
  { cacheRead := fun _ => .err "connection refused"
    menuFile := .valid menuW
    ordersPublishErr := none
    rand := 0 }

/-- Claim C3: cache Get is idempotent while the catalog source is
unchanged: when a Get succeeds with a record (by either path), a repeated
Get against the store extended with that call's own writes returns a
value-equal record — in particular a hit on a populated entry returns
exactly the value of the most recent successful population. -/
theorem cache_get_idempotent (env : Env) (rid : String) (m : RestaurantMenu)
    (eff : Effects)
    (h : getMenuFromCache env rid = (.ok m, eff)) :
    (getMenuFromCache (applyCacheWrites env eff.cacheWrites) rid).fst = .ok m := by
  cases hread : env.cacheRead rid with
  | found v =>
    simp only [getMenuFromCache, hread] at h
    cases hu : unmarshalMenu v with
    | none => simp [hu] at h
    | some m' =>
      simp only [hu, Prod.mk.injEq, Except.ok.injEq] at h
      obtain ⟨rfl, rfl⟩ := h
      simp [getMenuFromCache, applyCacheWrites, hread, hu, Effects.empty]
  | nil =>
    simp only [getMenuFromCache, hread] at h
    cases hfile : env.menuFile with
    | absent => simp [fetchMenuFromFile, hfile] at h
    | malformed => simp [fetchMenuFromFile, hfile] at h
    | valid md =>
      by_cases hid : md.restaurantId = rid
      · simp only [fetchMenuFromFile, hfile, if_pos hid, Prod.mk.injEq,
          Except.ok.injEq] at h
        obtain ⟨rfl, rfl⟩ := h
        simp [getMenuFromCache, applyCacheWrites, unmarshalMenu, marshalMenu]
      · simp [fetchMenuFromFile, hfile, if_neg hid] at h
  | err e =>
    simp [getMenuFromCache, hread] at h

theorem cache_get_idempotent_witness :
    (getMenuFromCache (applyCacheWrites envW effMissW.cacheWrites) "r1").fst =
      .ok menuW :=
  cache_get_idempotent envW "r1" menuW effMissW rfl

/-- Claim C4: a backing-store read failure other than the explicit
key-absent result is surfaced as a cache-infrastructure (server) error and
is not treated as a miss: no catalog-file fetch and no cache population
happen, in `getMenuFromCache` and in the `getMenu` handler alike. -/
theorem cache_read_failure_is_not_a_miss (env : Env) (rid e : String)
    (h : env.cacheRead rid = .err e) :
    getMenuFromCache env rid =
      (.error ("redis error: " ++ e), { Effects.empty with cacheReads := [rid] }) ∧
    (¬rid = "" → getMenu env rid =
      (.serverError "Redis error", { Effects.empty with cacheReads := [rid] })) := by
  constructor
  · rw [getMenuFromCache, h]
  · intro hr
    rw [getMenu, if_neg hr, h]

theorem cache_read_failure_is_not_a_miss_witness :
    getMenuFromCache envErrW "r1" =
      (.error ("redis error: " ++ "connection refused"),
        { Effects.empty with cacheReads := ["r1"] }) ∧
    getMenu envErrW "r1" =
      (.serverError "Redis error", { Effects.empty with cacheReads := ["r1"] }) := by
  have h := cache_read_failure_is_not_a_miss envErrW "r1" "connection refused" rfl
  exact ⟨h.1, h.2 (by decide)⟩

/-- Claim C6: ConfirmDelivery with non-empty order and rider ids whose
publish succeeds answers `{status: "Delivered"}` and appends exactly one
event to the order topic, whose payload names that order id as delivered;
with either id empty it answers a validation error with no event
published. -/
theorem deliver_publishes_one_event (env : Env) (req : DeliverRequest) :
    (¬req.orderId = "" → ¬req.riderId = "" → env.ordersPublishErr = none →
      confirmDelivery env req =
        (.ok ⟨"Delivered"⟩,
          { Effects.empty with
              ordersPublished := ["Order " ++ req.orderId ++ " Delivered"] })) ∧
    (req.orderId = "" ∨ req.riderId = "" →
      confirmDelivery env req =
        (.badRequest "Missing order_id or rider_id", Effects.empty)) := by
  constructor
  · intro h1 h2 hpub
    rw [confirmDelivery, if_neg (by simp [h1, h2]), hpub]
    simp [orderDeliveredMessage]
  · intro h
    rw [confirmDelivery, if_pos h]

theorem deliver_publishes_one_event_witness :
    confirmDelivery envW ⟨"o1", "rd1"⟩ =
      (.ok ⟨"Delivered"⟩,
        { Effects.empty with ordersPublished := ["Order o1 Delivered"] }) :=
  (deliver_publishes_one_event envW ⟨"o1", "rd1"⟩).1 (by decide) (by decide) rfl

/-- Claim C7: in every iteration of the relay loop over any message
stream, the k-th message is read, its offset committed, and only then
(at a strictly later position) the derived payload — the source payload
behind the notification marker — published to the notification topic,
which is distinct from the order-event topic. -/
theorem relay_commits_before_derived_publish (msgs : List String) (k : ℕ)
    (hk : k < msgs.length) :
    (relayRun msgs)[3 * k]? = some (.readMsg msgs[k]) ∧
    (relayRun msgs)[3 * k + 1]? = some (.commitOffset msgs[k]) ∧
    (relayRun msgs)[3 * k + 2]? =
      some (.publishNoti orderDeliveredTopic ("Notification: " ++ msgs[k])) ∧
    orderDeliveredTopic ≠ ordersTopic := by
  induction msgs generalizing k with
  | nil => simp at hk
  | cons m ms ih =>
    cases k with
    | zero =>
      refine ⟨?_, ?_, ?_, by decide⟩ <;>
        simp [relayRun, relayIteration, processOrderDeliveredEvent]
    | succ k' =>
      have hk' : k' < ms.length := by simpa using hk
      have hcons : ∀ n : ℕ,
          (relayRun (m :: ms))[n + 1 + 1 + 1]? = (relayRun ms)[n]? := by
        intro n
        simp [relayRun, relayIteration, List.getElem?_cons_succ]
      obtain ⟨g0, g1, g2, g3⟩ := ih k' hk'
      refine ⟨?_, ?_, ?_, g3⟩
      · rw [show 3 * (k' + 1) = 3 * k' + 1 + 1 + 1 from by ring, hcons, g0]
        simp
      · rw [show 3 * (k' + 1) + 1 = 3 * k' + 1 + 1 + 1 + 1 from by ring,
          hcons, g1]
        simp
      · rw [show 3 * (k' + 1) + 2 = 3 * k' + 2 + 1 + 1 + 1 from by ring,
          hcons, g2]
        simp

theorem relay_commits_before_derived_publish_witness :
    (relayRun ["Order o1 Delivered", "msg2"])[3 * 1]? = some (.readMsg "msg2") ∧
    (relayRun ["Order o1 Delivered", "msg2"])[3 * 1 + 1]? =
      some (.commitOffset "msg2") ∧
    (relayRun ["Order o1 Delivered", "msg2"])[3 * 1 + 2]? =
      some (.publishNoti orderDeliveredTopic ("Notification: " ++ "msg2")) ∧
    orderDeliveredTopic ≠ ordersTopic :=
  relay_commits_before_derived_publish ["Order o1 Delivered", "msg2"] 1 (by decide)

/-- Claim C8: `/notification/send` rejects any recipient other than
customer, restaurant, or rider with a 400 client error and no side
effect; for those three recipients it answers `{status: "sent"}`. -/
theorem notification_recipient_guard (req : SendNotificationRequest) :
    (¬req.recipient = "customer" ∧ ¬req.recipient = "restaurant" ∧
        ¬req.recipient = "rider" →
      sendNotification req = (.badRequest "Invalid recipient", Effects.empty)) ∧
    (req.recipient = "customer" ∨ req.recipient = "restaurant" ∨
        req.recipient = "rider" →
      sendNotification req = (.ok ⟨"sent"⟩, Effects.empty)) := by
  constructor
  · intro h
    rw [sendNotification, if_pos h]
  · intro h
    rw [sendNotification, if_neg (by rcases h with h | h | h <;> simp [h])]

theorem notification_recipient_guard_witness :
    sendNotification ⟨"alien", "o1", "hi"⟩ =
      (.badRequest "Invalid recipient", Effects.empty) ∧
    sendNotification ⟨"customer", "o1", "hi"⟩ = (.ok ⟨"sent"⟩, Effects.empty) :=
  ⟨(notification_recipient_guard ⟨"alien", "o1", "hi"⟩).1 (by decide),
   (notification_recipient_guard ⟨"customer", "o1", "hi"⟩).2 (Or.inl rfl)⟩

end FoodDelivery
